import Mathlib

/-!
Verification development for the click-routing core of the `clickable-detail`
repository (`src/lib/DynamicSVG.tsx`, `src/lib/Polygon.tsx`, `src/lib/Image.tsx`
(`Line`), `src/lib/Ellipse.tsx`, `Circle`, `Toggle`, `Text`).

The JavaScript number semantics that the hit-test code relies on (division by
zero producing infinities, `NaN` propagation, comparisons with `NaN` being
false) are modelled by `CDetail.JSNum`: a rational number, `+Infinity`,
`-Infinity`, or `NaN`.  Finite arithmetic is exact rational arithmetic; IEEE
rounding is not modelled (all concrete inputs used below are chosen so that
rounding cannot change any comparison outcome), and the sign of zero is not
modelled (in the translated code a signed zero could only change the sign of an
infinite intermediate value that is subsequently discarded by a finiteness
check or by an absolute value, never a boolean outcome).

Rational arithmetic is implemented through `mkRat` / `Rat.num` / `Rat.den`
(rather than the `Rat` field operations) so that every definition evaluates
inside the kernel; the `q*_eq` bridge lemmas below identify these
implementations with the ordinary field operations on `ℚ`.
-/

namespace CDetail

/-- Exact rational addition, implemented with `mkRat` so it reduces in the kernel. -/
def qadd (a b : ℚ) : ℚ := mkRat (a.num * b.den + b.num * a.den) (a.den * b.den)

/-- Exact rational subtraction, implemented with `mkRat` so it reduces in the kernel. -/
def qsub (a b : ℚ) : ℚ := mkRat (a.num * b.den - b.num * a.den) (a.den * b.den)

/-- Exact rational multiplication, implemented with `mkRat` so it reduces in the kernel. -/
def qmul (a b : ℚ) : ℚ := mkRat (a.num * b.num) (a.den * b.den)

/-- Exact rational division (the divisor is assumed nonzero by callers),
implemented with `Rat.divInt` so it reduces in the kernel. -/
def qdiv (a b : ℚ) : ℚ := Rat.divInt (a.num * b.den) (a.den * b.num)

/-- Exact rational negation. -/
def qneg (a : ℚ) : ℚ := mkRat (-a.num) a.den

/-- Exact rational absolute value. -/
def qabs (a : ℚ) : ℚ := mkRat (a.num.natAbs : ℤ) a.den

theorem qadd_eq (a b : ℚ) : qadd a b = a + b := by
  rw [qadd, Rat.mkRat_eq_div]
  conv_rhs => rw [← Rat.num_div_den a, ← Rat.num_div_den b]
  rw [div_add_div _ _ (by positivity : (a.den : ℚ) ≠ 0) (by positivity : (b.den : ℚ) ≠ 0)]
  push_cast
  ring_nf

theorem qsub_eq (a b : ℚ) : qsub a b = a - b := by
  rw [qsub, Rat.mkRat_eq_div]
  conv_rhs => rw [← Rat.num_div_den a, ← Rat.num_div_den b]
  rw [div_sub_div _ _ (by positivity : (a.den : ℚ) ≠ 0) (by positivity : (b.den : ℚ) ≠ 0)]
  push_cast
  ring_nf

theorem qmul_eq (a b : ℚ) : qmul a b = a * b := by
  rw [qmul, Rat.mkRat_eq_div]
  conv_rhs => rw [← Rat.num_div_den a, ← Rat.num_div_den b]
  rw [div_mul_div_comm]
  push_cast
  ring_nf

theorem qneg_eq (a : ℚ) : qneg a = -a := by
  rw [qneg, Rat.mkRat_eq_div]
  conv_rhs => rw [← Rat.num_div_den a]
  push_cast
  ring_nf

theorem qdiv_eq (a b : ℚ) (hb : b ≠ 0) : qdiv a b = a / b := by
  have hbn : (b.num : ℚ) ≠ 0 := by
    simpa using (Rat.num_ne_zero).2 hb
  have had : (a.den : ℚ) ≠ 0 := by positivity
  have hbd : (b.den : ℚ) ≠ 0 := by positivity
  have ha : ((a.num : ℚ)) = a * a.den := (div_eq_iff had).1 (Rat.num_div_den a)
  have hb2 : ((b.num : ℚ)) = b * b.den := (div_eq_iff hbd).1 (Rat.num_div_den b)
  rw [qdiv, Rat.divInt_eq_div]
  push_cast
  rw [div_eq_div_iff (mul_ne_zero had hbn) hb]
  rw [ha, hb2]
  ring

/-- A JavaScript number as used by the hit-testing code: a finite (exact)
rational, `+Infinity`, `-Infinity`, or `NaN`. -/
inductive JSNum where
  | num (q : ℚ)
  | inf
  | ninf
  | nan
deriving DecidableEq, Repr

namespace JSNum

/-- JS `isFinite(x) && !isNaN(x)` (the two checks coincide on this model,
since `isFinite` already rejects `NaN`). -/
def isFinite : JSNum → Bool
  | num _ => true
  | _ => false

/-- JS addition. -/
def jadd : JSNum → JSNum → JSNum
  | nan, _ => nan
  | _, nan => nan
  | num a, num b => num (qadd a b)
  | inf, ninf => nan
  | ninf, inf => nan
  | inf, _ => inf
  | _, inf => inf
  | ninf, _ => ninf
  | _, ninf => ninf

/-- JS unary minus. -/
def jneg : JSNum → JSNum
  | num a => num (qneg a)
  | inf => ninf
  | ninf => inf
  | nan => nan

/-- JS subtraction (`a - b` behaves as `a + (-b)`). -/
def jsub (a b : JSNum) : JSNum := jadd a (jneg b)

/-- JS multiplication (`0 * Infinity` is `NaN`). -/
def jmul : JSNum → JSNum → JSNum
  | nan, _ => nan
  | _, nan => nan
  | num a, num b => num (qmul a b)
  | inf, inf => inf
  | inf, ninf => ninf
  | ninf, inf => ninf
  | ninf, ninf => inf
  | inf, num b => if 0 < b then inf else if b < 0 then ninf else nan
  | num a, inf => if 0 < a then inf else if a < 0 then ninf else nan
  | ninf, num b => if 0 < b then ninf else if b < 0 then inf else nan
  | num a, ninf => if 0 < a then ninf else if a < 0 then inf else nan

/-- JS division.  Division of a nonzero finite number by zero yields a signed
infinity (the zero produced by the subtractions in the translated code is
`+0`), `0 / 0` yields `NaN`. -/
def jdiv : JSNum → JSNum → JSNum
  | nan, _ => nan
  | _, nan => nan
  | num a, num b =>
    if b = 0 then (if 0 < a then inf else if a < 0 then ninf else nan)
    else num (qdiv a b)
  | num _, inf => num 0
  | num _, ninf => num 0
  | inf, num b => if b < 0 then ninf else inf
  | ninf, num b => if b < 0 then inf else ninf
  | inf, _ => nan
  | ninf, _ => nan

/-- JS `Math.abs`. -/
def jabs : JSNum → JSNum
  | num a => num (qabs a)
  | nan => nan
  | _ => inf

/-- JS `<` (every comparison involving `NaN` is false). -/
def jlt : JSNum → JSNum → Bool
  | nan, _ => false
  | _, nan => false
  | num a, num b => decide (a < b)
  | num _, inf => true
  | ninf, num _ => true
  | ninf, inf => true
  | _, _ => false

/-- JS `<=` (every comparison involving `NaN` is false). -/
def jle : JSNum → JSNum → Bool
  | nan, _ => false
  | _, nan => false
  | num a, num b => decide (a ≤ b)
  | num _, inf => true
  | ninf, _ => true
  | inf, inf => true
  | _, _ => false

/-- JS `>`. -/
def jgt (a b : JSNum) : Bool := jlt b a

/-- JS `>=`. -/
def jge (a b : JSNum) : Bool := jle b a

/-- JS `Math.pow(x, 2)`, which is exactly `x * x`. -/
def jpow2 (a : JSNum) : JSNum := jmul a a

/-- JS binary `Math.min` (returns `NaN` if either argument is `NaN`). -/
def jmin2 : JSNum → JSNum → JSNum
  | nan, _ => nan
  | _, nan => nan
  | num a, num b => if a ≤ b then num a else num b
  | ninf, _ => ninf
  | _, ninf => ninf
  | inf, b => b
  | a, inf => a

/-- JS binary `Math.max` (returns `NaN` if either argument is `NaN`). -/
def jmax2 : JSNum → JSNum → JSNum
  | nan, _ => nan
  | _, nan => nan
  | num a, num b => if a ≤ b then num b else num a
  | inf, _ => inf
  | _, inf => inf
  | ninf, b => b
  | a, ninf => a

/-- JS `Math.min(...l)` (spread over a list; empty list gives `Infinity`). -/
def jminList (l : List JSNum) : JSNum := l.foldr jmin2 inf

/-- JS `Math.max(...l)` (spread over a list; empty list gives `-Infinity`). -/
def jmaxList (l : List JSNum) : JSNum := l.foldr jmax2 ninf

/-- JS `Math.sqrt s < r`, as a single combined operation: `Math.sqrt` of a
negative number or of `NaN` is `NaN` (so the comparison is false),
`Math.sqrt Infinity = Infinity` (so the comparison is false), and for
`0 ≤ s` and finite `r` the comparison `sqrt s < r` holds exactly when
`0 < r` and `s < r * r`.  Combining the square root with the comparison keeps
the definition inside exact rational arithmetic. -/
def jsqrtLt : JSNum → JSNum → Bool
  | num a, num b => decide (0 ≤ a) && decide (0 < b) && decide (a < qmul b b)
  | num a, inf => decide (0 ≤ a)
  | _, _ => false

theorem jadd_num (a b : ℚ) : jadd (num a) (num b) = num (a + b) := by
  simp [jadd, qadd_eq]

theorem jsub_num (a b : ℚ) : jsub (num a) (num b) = num (a - b) := by
  simp [jsub, jadd, jneg, qadd_eq, qneg_eq, sub_eq_add_neg]

theorem jmul_num (a b : ℚ) : jmul (num a) (num b) = num (a * b) := by
  simp [jmul, qmul_eq]

theorem jlt_num (a b : ℚ) : jlt (num a) (num b) = decide (a < b) := rfl

theorem jle_num (a b : ℚ) : jle (num a) (num b) = decide (a ≤ b) := rfl

theorem jadd_nan_left (b : JSNum) : jadd nan b = nan := by cases b <;> rfl

theorem jadd_nan_right (a : JSNum) : jadd a nan = nan := by cases a <;> rfl

theorem jneg_nan : jneg nan = nan := rfl

theorem jsub_nan_left (b : JSNum) : jsub nan b = nan := by cases b <;> rfl

theorem jsub_nan_right (a : JSNum) : jsub a nan = nan := by cases a <;> rfl

theorem jmul_nan_left (b : JSNum) : jmul nan b = nan := by cases b <;> rfl

theorem jmul_nan_right (a : JSNum) : jmul a nan = nan := by cases a <;> rfl

theorem jdiv_nan_left (b : JSNum) : jdiv nan b = nan := by cases b <;> rfl

theorem jdiv_nan_right (a : JSNum) : jdiv a nan = nan := by cases a <;> rfl

theorem jlt_nan_left (b : JSNum) : jlt nan b = false := by cases b <;> rfl

theorem jlt_nan_right (a : JSNum) : jlt a nan = false := by cases a <;> rfl

theorem jle_nan_left (b : JSNum) : jle nan b = false := by cases b <;> rfl

theorem jle_nan_right (a : JSNum) : jle a nan = false := by cases a <;> rfl

theorem jabs_nan : jabs nan = nan := rfl

/-- Multiplying a non-finite number by anything stays non-finite. -/
theorem jmul_isFinite_false (m z : JSNum) (h : m.isFinite = false) :
    (jmul m z).isFinite = false := by
  cases m with
  | num a => simp [isFinite] at h
  | nan => cases z <;> rfl
  | inf =>
    cases z with
    | num b =>
      simp only [jmul]
      split
      · rfl
      split <;> rfl
    | inf => rfl
    | ninf => rfl
    | nan => rfl
  | ninf =>
    cases z with
    | num b =>
      simp only [jmul]
      split
      · rfl
      split <;> rfl
    | inf => rfl
    | ninf => rfl
    | nan => rfl

/-- Adding anything to a non-finite number stays non-finite. -/
theorem jadd_isFinite_false (a t : JSNum) (h : t.isFinite = false) :
    (jadd a t).isFinite = false := by
  cases a <;> cases t <;> simp_all [jadd, isFinite]

/-- Subtracting a non-finite number from anything stays non-finite. -/
theorem jsub_isFinite_false (a t : JSNum) (h : t.isFinite = false) :
    (jsub a t).isFinite = false := by
  cases a <;> cases t <;> simp_all [jsub, jadd, jneg, isFinite]

/-- Dividing anything by (finite) zero gives a non-finite result. -/
theorem jdiv_zero_isFinite_false (w : JSNum) : (jdiv w (num 0)).isFinite = false := by
  cases w with
  | num a =>
    have h0 : jdiv (num a) (num 0) = if 0 < a then inf else if a < 0 then ninf else nan := by
      simp [jdiv]
    rw [h0]
    split
    · rfl
    split <;> rfl
  | inf => simp [jdiv, isFinite]
  | ninf => simp [jdiv, isFinite]
  | nan => rfl

/-- The absolute value of a non-finite number is never strictly below anything. -/
theorem jlt_jabs_false (u sw : JSNum) (h : u.isFinite = false) :
    jlt (jabs u) sw = false := by
  cases u with
  | num a => simp [isFinite] at h
  | inf => cases sw <;> rfl
  | ninf => cases sw <;> rfl
  | nan => cases sw <;> rfl

end JSNum

theorem qabs_eq (a : ℚ) : qabs a = |a| := by
  rw [qabs, Rat.mkRat_eq_div]
  rcases abs_cases a with ⟨h1, h2⟩ | ⟨h1, h2⟩
  · rw [h1]
    have : (a.num.natAbs : ℤ) = a.num := Int.natAbs_of_nonneg (Rat.num_nonneg.2 h2)
    rw [this]
    exact Rat.num_div_den a
  · rw [h1]
    have : (a.num.natAbs : ℤ) = -a.num := by
      rw [Int.ofNat_natAbs_of_nonpos (Rat.num_nonpos.2 (le_of_lt h2))]
    rw [this]
    push_cast
    rw [neg_div]
    rw [Rat.num_div_den a]

open JSNum

/-- Shorthand for a finite JS number given by a rational literal. -/
def jq (q : ℚ) : JSNum := JSNum.num q

/-- Reading a possibly-`undefined` numeric prop as a JS number: using an
`undefined` value in arithmetic or comparisons behaves as `NaN`. -/
def onum (o : Option ℚ) : JSNum := o.elim JSNum.nan JSNum.num

/-!  ## Raw bridge payloads

The mouse-observer subprocess reports each click as a line of text.  Strings
are modelled as `List Char` so that everything reduces in the kernel.
-/

/-- JS `text.split(sep)` for a single-character separator, as in
`output.split(",")`: splitting the empty string yields `[""]`. -/
def splitOn1 (sep : Char) : List Char → List (List Char)
  | [] => [[]]
  | c :: rest =>
    if c = sep then [] :: splitOn1 sep rest
    else match splitOn1 sep rest with
      | [] => [[c]]
      | grp :: grps => (c :: grp) :: grps

/-- Numeric value accumulated from a list of decimal digit characters. -/
def digitsToNat : List Char → ℕ :=
  List.foldl (fun acc c => 10 * acc + (c.toNat - 48)) 0

/-- JS `parseInt` (radix 10, as used on bridge payloads): skip leading
whitespace, read an optional sign and then a maximal run of decimal digits,
ignoring any trailing characters; if no digits are present the result is
`NaN`.  (Radix prefixes such as `0x`, which only change the behaviour on
inputs the bridge never produces, are not modelled.) -/
def parseIntJS (s : List Char) : JSNum :=
  let s1 := s.dropWhile (fun c => c = ' ' || c = '\t' || c = '\n' || c = '\r')
  let core := fun (sign : ℤ) (rest : List Char) =>
    let ds := rest.takeWhile Char.isDigit
    if ds.isEmpty then JSNum.nan
    else JSNum.num (mkRat (sign * (digitsToNat ds : ℤ)) 1)
  match s1 with
  | '-' :: rest => core (-1) rest
  | '+' :: rest => core 1 rest
  | rest => core 1 rest

/-!  ## The visual-element tree

A `Node` models one JSX element as consumed by `ClickableDetail`: a component
kind (the `type` of the element), its numeric/interaction props, and its
element children.  String children (the text content of `Text`/`Link`/HTML
elements) are kept in `Props.content`: in the source they appear in
`props.children` (making it truthy) but can never contribute a click handler
or a geometry error, since a bare string has no `props`. -/

/-- The component kinds distinguished by `ClickableDetail`'s dispatch on
`childChild.type`; `generic` stands for any other element (`Rect`, `Image`,
`Path`, `WebView`, HTML tags other than `H1`, ...). -/
inductive Kind where
  | circle
  | ellipse
  | polygon
  | line
  | toggle
  | text
  | link
  | h1
  | generic
deriving DecidableEq, Repr

/-- An `onClick` callback, identified by an id; `throws` records whether
invoking it raises an exception. -/
structure Callback where
  id : ℕ
  throws : Bool
deriving DecidableEq, Repr

/-- The props of one element that the click-routing code reads.  A field value
`none` models an `undefined` prop.  Polygon vertices are stored as the
already-`parseInt`-ed coordinate pairs of the `points` attribute (a malformed
coordinate parses to `NaN`, hence `JSNum`). -/
structure Props where
  x : Option ℚ := none
  y : Option ℚ := none
  width : Option ℚ := none
  height : Option ℚ := none
  cx : Option ℚ := none
  cy : Option ℚ := none
  radius : Option ℚ := none
  rx : Option ℚ := none
  ry : Option ℚ := none
  x1 : Option ℚ := none
  y1 : Option ℚ := none
  x2 : Option ℚ := none
  y2 : Option ℚ := none
  strokeWidth : Option ℚ := none
  fontSize : Option ℚ := none
  pts : List (JSNum × JSNum) := []
  content : List Char := []
  onClick : Option Callback := none
deriving DecidableEq, Repr

mutual
/-- A JSX element as consumed by `ClickableDetail`. -/
inductive Node where
  | mk (kind : Kind) (props : Props) (children : NodeList)

/-- The element children of a `Node` (a specialised list so that all
recursive functions are structural and reduce in the kernel). -/
inductive NodeList where
  | nil
  | cons (head : Node) (tail : NodeList)
end

/-- The kind of a node. -/
def Node.kind : Node → Kind
  | .mk k _ _ => k

/-- The props of a node. -/
def Node.props : Node → Props
  | .mk _ p _ => p

/-- The children of a node. -/
def Node.children : Node → NodeList
  | .mk _ _ cs => cs

/-- Whether a `NodeList` is empty. -/
def NodeList.isNil : NodeList → Bool
  | .nil => true
  | .cons _ _ => false

/-- Build a `NodeList` from an ordinary list. -/
def NodeList.ofList : List Node → NodeList
  | [] => .nil
  | n :: ns => .cons n (NodeList.ofList ns)

mutual
/-- Translation of `getChildrenRecursive` from `DynamicSVG.tsx`: the element itself followed
by the recursive expansion of each of its element children, in order
(`[child, ...childChildren.flatMap(getChildrenRecursive)]`). -/
def getChildrenRecursive : Node → List Node
  | .mk k p cs => .mk k p cs :: childrenRecursiveAll cs

/-- The function `getChildrenRecursive` mapped over a list of children, concatenated. -/
def childrenRecursiveAll : NodeList → List Node
  | .nil => []
  | .cons c cs => getChildrenRecursive c ++ childrenRecursiveAll cs
end

/-- JS truthiness of `child.props.children`: the element has JSX children
(element children, or nonempty string content). -/
def hasChildrenProp (c : Node) : Bool := !c.children.isNil || !c.props.content.isEmpty

/-- JS truthiness of an optional numeric prop (`undefined` and `0` are falsy). -/
def truthy (o : Option ℚ) : Bool := o.elim false (fun q => decide (q ≠ 0))

/-- JS `child.props.height || 0`, as accumulated into `heightUpToNow`. -/
def heightOrZero (c : Node) : ℚ := if truthy c.props.height then c.props.height.getD 0 else 0

/-- The final value of `heightUpToNow` after the build loop.  The loop
declares `let heightUpToNow = 0` once and the top-level click handlers close
over that single mutable binding, so at dispatch time (after the effect has
finished) every top-level handler observes the sum of all siblings' declared
heights. -/
def totalHeight (cs : List Node) : ℚ := cs.foldl (fun acc c => qadd acc (heightOrZero c)) 0

/-!  ## Geometric hit tests (one per shape component) -/

/-- Translation of `Circle.doesContainPoint` from `Circle.tsx`:
`Math.sqrt(Math.pow(x - (cx + 15), 2) + Math.pow(y - (cy + 15), 2)) < radius`. -/
def Circle.doesContainPoint (p : Props) (x y : JSNum) : Bool :=
  jsqrtLt
    (jadd (jpow2 (jsub x (jadd (onum p.cx) (jq 15))))
      (jpow2 (jsub y (jadd (onum p.cy) (jq 15)))))
    (onum p.radius)

/-- Translation of `Ellipse.doesContainPoint` from `Ellipse.tsx`:
`Math.pow((x - cx - 15) / rx, 2) + Math.pow((y - cy - 15) / ry, 2) < 1`. -/
def Ellipse.doesContainPoint (p : Props) (x y : JSNum) : Bool :=
  jlt
    (jadd (jpow2 (jdiv (jsub (jsub x (onum p.cx)) (jq 15)) (onum p.rx)))
      (jpow2 (jdiv (jsub (jsub y (onum p.cy)) (jq 15)) (onum p.ry))))
    (jq 1)

/-- Translation of `Toggle.doesContainPoint` from `Toggle.tsx`:
`x >= 15 + toggleX && x <= 15 + toggleX + 100 && y >= 15 + toggleY && y <= 15 + toggleY + 20`. -/
def Toggle.doesContainPoint (p : Props) (x y : JSNum) : Bool :=
  jge x (jadd (jq 15) (onum p.x)) &&
  jle x (jadd (jadd (jq 15) (onum p.x)) (jq 100)) &&
  jge y (jadd (jq 15) (onum p.y)) &&
  jle y (jadd (jadd (jq 15) (onum p.y)) (jq 20))

/-- Translation of `Line.doesContainPoint` from `Line.tsx`: the slope/intercept form of the
infinite line through the two shifted endpoints, with
`|y - (m*x + b)| < strokeWidth`.  (`strokeWidth` has the `defaultProps`
value `1` when not supplied.) -/
def Line.doesContainPoint (p : Props) (x y : JSNum) : Bool :=
  let m := jdiv (jsub (jadd (onum p.y2) (jq 15)) (jadd (onum p.y1) (jq 15)))
    (jsub (jadd (onum p.x2) (jq 15)) (jadd (onum p.x1) (jq 15)))
  let b := jsub (jadd (onum p.y1) (jq 15)) (jmul m (jadd (onum p.x1) (jq 15)))
  jlt (jabs (jsub y (jadd (jmul m x) b))) (jq (p.strokeWidth.getD 1))

/-- The polygon vertices after the `+15` content-margin shift
(`{ x: 15 + parseInt(point[0]), y: 15 + parseInt(point[1]) }`). -/
def Polygon.shiftedPoints (p : Props) : List (JSNum × JSNum) :=
  p.pts.map (fun q => (jadd (jq 15) q.1, jadd (jq 15) q.2))

/-- The edge list of a vertex list: vertex `i` paired with vertex
`(i+1) % n`. -/
def edgesOf (ps : List (JSNum × JSNum)) : List ((JSNum × JSNum) × (JSNum × JSNum)) :=
  ps.zip (ps.rotateLeft 1)

/-- The slope `edge_m = (edge.y2 - edge.y1) / (edge.x2 - edge.x1)`. -/
def slopeOf (e : (JSNum × JSNum) × (JSNum × JSNum)) : JSNum :=
  jdiv (jsub e.2.2 e.1.2) (jsub e.2.1 e.1.1)

/-- The intercept `edge_b = edge.y1 - edge_m * edge.x1`. -/
def interceptOf (e : (JSNum × JSNum) × (JSNum × JSNum)) : JSNum :=
  jsub e.1.2 (jmul (slopeOf e) e.1.1)

/-- The intersection point of two lines in slope/intercept form:
`x0 = (b2 - b1) / (m1 - m2)`, `y0 = m1 * x0 + b1`. -/
def lineIntersect (m1 b1 m2 b2 : JSNum) : JSNum × JSNum :=
  (jdiv (jsub b2 b1) (jsub m1 m2),
    jadd (jmul m1 (jdiv (jsub b2 b1) (jsub m1 m2))) b1)

/-- The minimum shifted x-coordinate of the polygon
(`Math.min(...points.map(p => p.x))`). -/
def Polygon.minX (p : Props) : JSNum := jminList ((Polygon.shiftedPoints p).map Prod.fst)

/-- The minimum shifted y-coordinate of the polygon. -/
def Polygon.minY (p : Props) : JSNum := jminList ((Polygon.shiftedPoints p).map Prod.snd)

/-- The maximum shifted x-coordinate of the polygon. -/
def Polygon.maxX (p : Props) : JSNum := jmaxList ((Polygon.shiftedPoints p).map Prod.fst)

/-- The maximum shifted y-coordinate of the polygon. -/
def Polygon.maxY (p : Props) : JSNum := jmaxList ((Polygon.shiftedPoints p).map Prod.snd)

/-- The reference abscissa `ray.x1 = points[0].x` (in the source, `points[0]` is only read when the
vertex list is nonempty, which the `points`-string splitting guarantees; on
an empty vertex list the bounding-box check already returns `false` for
every finite query point, so the default never matters). -/
def Polygon.refX (p : Props) : JSNum := ((Polygon.shiftedPoints p).headD (JSNum.nan, JSNum.nan)).1

/-- The slope `ray_m = (ray.y2 - ray.y1) / (ray.x2 - ray.x1)` for the ray from
`(points[0].x, -100)` to the query point `(x, y)`. -/
def Polygon.rayM (p : Props) (x y : JSNum) : JSNum :=
  jdiv (jsub y (jq (-100))) (jsub x (Polygon.refX p))

/-- The intercept `ray_b = ray.y1 - ray_m * ray.x1`. -/
def Polygon.rayB (p : Props) (x y : JSNum) : JSNum :=
  jsub (jq (-100)) (jmul (Polygon.rayM p x y) (Polygon.refX p))

/-- The per-edge counting condition of the intersection loop in
`Polygon.doesContainPoint` (lines 100-126 of `Polygon.tsx`): the
intersection of the ray's line and the edge's line exists and is finite,
and lies within the ray's bounds and within the polygon's bounding box.
(The edge's own bounds are *not* consulted.) -/
def Polygon.edgeCounted (p : Props) (x y : JSNum)
    (e : (JSNum × JSNum) × (JSNum × JSNum)) : Bool :=
  let x0 := (lineIntersect (Polygon.rayM p x y) (Polygon.rayB p x y) (slopeOf e) (interceptOf e)).1
  let y0 := (lineIntersect (Polygon.rayM p x y) (Polygon.rayB p x y) (slopeOf e) (interceptOf e)).2
  x0.isFinite && y0.isFinite &&
  jge x0 (jmin2 (Polygon.refX p) x) && jle x0 (jmax2 (Polygon.refX p) x) &&
  jge y0 (jmin2 (jq (-100)) y) && jle y0 (jmax2 (jq (-100)) y) &&
  jge x0 (Polygon.minX p) && jle x0 (Polygon.maxX p) &&
  jge y0 (Polygon.minY p) && jle y0 (Polygon.maxY p)

/-- Translation of `Polygon.doesContainPoint` from `Polygon.tsx`: bounding-box short
circuit, then ray casting from `(points[0].x, -100)` to the query point,
counting the intersections described by `Polygon.edgeCounted`; inside iff
the count is odd. -/
def Polygon.doesContainPoint (p : Props) (x y : JSNum) : Bool :=
  if jlt x (Polygon.minX p) || jgt x (Polygon.maxX p) ||
      jlt y (Polygon.minY p) || jgt y (Polygon.maxY p) then false
  else
    decide (((edgesOf (Polygon.shiftedPoints p)).countP (Polygon.edgeCounted p x y)) % 2 ≠ 0)

/-- Translation of `Text.computeDimensions` from `Text.tsx` (`fontSize || 16`; a prop is
used only when truthy).  Lines are the newline-separated pieces of the
stringified children; `Math.max` over their lengths is taken over a
nonempty list in the source, so the `0` default is never consulted. -/
def Text.computeDimensions (p : Props) : Option ℚ × Option ℚ :=
  let fs : ℚ := if truthy p.fontSize then p.fontSize.getD 0 else 16
  let lines := splitOn1 '\n' p.content
  let textHeight : ℚ := qmul (qmul (mkRat 11 10) fs) (mkRat (lines.length + 1 : ℤ) 1)
  let maxLen : ℕ := (lines.map List.length).foldr max 0
  let textWidth : ℚ := qsub (qmul (mkRat (maxLen : ℤ) 1) fs) fs
  if truthy p.width && truthy p.height then (p.width, p.height)
  else if truthy p.width && !truthy p.height then (p.width, some textHeight)
  else if !truthy p.width && truthy p.height then (some textWidth, p.height)
  else (some textWidth, some textHeight)

/-!  ## Registry builder (`ClickableDetail`'s build effect) -/

/-- The two build-time geometry errors thrown by `ClickableDetail`:
`missingDims` is "Child of clickable element must have x, y, width, and
height props" (the `H1` special case), `missingGeometry` is "Child of
clickable element must have explicit dimensions and position.". -/
inductive BuildErr where
  | missingDims
  | missingGeometry
deriving DecidableEq, Repr

/-- The shape kinds exempted from the geometry check
(`childChild.type != Circle && != Ellipse && != Polygon && != Line`). -/
def exemptShape : Kind → Bool
  | .circle => true
  | .ellipse => true
  | .polygon => true
  | .line => true
  | _ => false

/-- The `computedDimensions` record (width and height props), replaced by
`Text.computeDimensions` for `Text` and `Link` elements. -/
def computedDims (d : Node) : Option ℚ × Option ℚ :=
  if d.kind = Kind.text ∨ d.kind = Kind.link then Text.computeDimensions d.props
  else (d.props.width, d.props.height)

/-- A registered click handler.  `top` handlers come from the top-level
branch of the build loop (lines 77-90 of `DynamicSVG.tsx`) and close over
the mutated `heightUpToNow` binding; `nested` handlers come from the
descendant scan (lines 92-156) and capture the element's props and its
`computedDimensions`. -/
inductive Handler where
  | top (x y w h : Option ℚ) (cb : Callback)
  | nested (kind : Kind) (p : Props) (dims : Option ℚ × Option ℚ) (cb : Callback)
deriving DecidableEq, Repr

/-- The callback captured by a handler. -/
def Handler.cb : Handler → Callback
  | .top _ _ _ _ cb => cb
  | .nested _ _ _ cb => cb

/-- Whether a handler came from the descendant scan. -/
def Handler.isNested : Handler → Bool
  | .top _ _ _ _ _ => false
  | .nested _ _ _ _ => true

/-- The geometry check and handler construction for one scanned descendant
(lines 95-155 of `DynamicSVG.tsx`); descendants without a callback are
skipped. -/
def buildNested (d : Node) : Except BuildErr (List Handler) :=
  match d.props.onClick with
  | none => .ok []
  | some cb =>
    if (d.props.x.isNone || d.props.y.isNone) && !exemptShape d.kind then
      if decide (d.kind = Kind.h1) && (d.props.width.isNone || d.props.height.isNone) then
        .error .missingDims
      else .error .missingGeometry
    else .ok [Handler.nested d.kind d.props (computedDims d) cb]

/-- The function `buildNested` applied over a scan list, in order, failing fast on the first
geometry error (the `throw` aborts the whole effect). -/
def buildList : List Node → Except BuildErr (List Handler)
  | [] => .ok []
  | d :: ds =>
    match buildNested d with
    | .error e => .error e
    | .ok h =>
      match buildList ds with
      | .error e => .error e
      | .ok t => .ok (h ++ t)

/-- The handlers contributed by one top-level child: a `top` handler if it
has an `onClick` (truthy), then, if its `children` prop is truthy, a
`nested` handler for each callback-carrying element in
`getChildrenRecursive child` (which includes the child itself). -/
def buildForChild (c : Node) : Except BuildErr (List Handler) :=
  let topHs : List Handler :=
    match c.props.onClick with
    | some cb => [Handler.top c.props.x c.props.y c.props.width c.props.height cb]
    | none => []
  match (if hasChildrenProp c then buildList (getChildrenRecursive c) else .ok []) with
  | .error e => .error e
  | .ok nestedHs => .ok (topHs ++ nestedHs)

/-- The full registry build over the top-level children, in declaration
order (`newClickHandlers` at the end of the loop in lines 72-159). -/
def buildHandlers : List Node → Except BuildErr (List Handler)
  | [] => .ok []
  | c :: cs =>
    match buildForChild c with
    | .error e => .error e
    | .ok hc =>
      match buildHandlers cs with
      | .error e => .error e
      | .ok rest => .ok (hc ++ rest)

/-!  ## Event dispatcher -/

/-- The test of the top-level branch (lines 79-84): a *disjunction* of the
four comparisons, with the `y` bounds shifted by the final `heightUpToNow`
value `T`. -/
def topCond (T : ℚ) (px py pw ph : Option ℚ) (x y : JSNum) : Bool :=
  jgt x (onum px) || jlt x (jadd (onum px) (onum pw)) ||
  jgt y (jadd (jq T) (onum py)) || jlt y (jadd (jadd (jq T) (onum py)) (onum ph))

/-- The box test of the generic nested branch (lines 136-143):
`x > 15 + px && x < px + w - 15 && y > 15 + py && y < py + h`. -/
def boxContains (px py : Option ℚ) (dims : Option ℚ × Option ℚ) (x y : JSNum) : Bool :=
  jgt x (jadd (jq 15) (onum px)) &&
  jlt x (jsub (jadd (onum px) (onum dims.1)) (jq 15)) &&
  jgt y (jadd (jq 15) (onum py)) &&
  jlt y (jadd (onum py) (onum dims.2))

/-- The pure geometric test of a handler: which shape test the dispatch
closure runs for a click at `(x, y)` (the `if`/`else if` chain on
`childChild.type` for nested handlers, the disjunctive test for top-level
handlers). -/
def shapeHit (T : ℚ) (h : Handler) (x y : JSNum) : Bool :=
  match h with
  | .top px py pw ph _ => topCond T px py pw ph x y
  | .nested k p dims _ =>
    match k with
    | .line => Line.doesContainPoint p x y
    | .circle => Circle.doesContainPoint p x y
    | .ellipse => Ellipse.doesContainPoint p x y
    | .polygon => Polygon.doesContainPoint p x y
    | .toggle => Toggle.doesContainPoint p x y
    | _ => boxContains p.x p.y dims x y

/-- Running one handler at a click point.  Returns (handler result,
callbacks invoked, uncaught exception?).  A `top` handler invokes its
callback bare, so a throwing callback propagates out of the dispatch loop;
a `nested` handler invokes it inside `try`/`catch`, logging the error and
returning `false` (lines 147-153). -/
def runHandler (T : ℚ) (h : Handler) (x y : JSNum) : Bool × List ℕ × Bool :=
  match h with
  | .top px py pw ph cb =>
    if topCond T px py pw ph x y then (true, [cb.id], cb.throws) else (false, [], false)
  | .nested _ _ _ cb =>
    if shapeHit T h x y then (if cb.throws then false else true, [cb.id], false)
    else (false, [], false)

/-- The dispatch loop (lines 187-191): run the handlers in registry order,
stopping at the first one that returns `true` (or at an uncaught
exception).  Returns the invoked callback ids in order, and whether an
uncaught exception escaped the loop. -/
def dispatchList (T : ℚ) : List Handler → JSNum → JSNum → List ℕ × Bool
  | [], _, _ => ([], false)
  | h :: hs, x, y =>
    let r := runHandler T h x y
    if r.2.2 then (r.2.1, true)
    else if r.1 then (r.2.1, false)
    else
      let rest := dispatchList T hs x y
      (r.2.1 ++ rest.1, rest.2)

/-- Translation of `clickHandler.current` (lines 178-192): split the raw payload on `","`;
unless that yields exactly two components, drop the event; otherwise
`parseInt` both components and run the dispatch loop. -/
def clickHandlerRun (T : ℚ) (hs : List Handler) (raw : List Char) : List ℕ × Bool :=
  match splitOn1 ',' raw with
  | [c0, c1] => dispatchList T hs (parseIntJS c0) (parseIntJS c1)
  | _ => ([], false)

/-- Build the registry from the top-level children and dispatch one raw
bridge payload against it. -/
def buildAndDispatch (cs : List Node) (raw : List Char) : Except BuildErr (List ℕ × Bool) :=
  (buildHandlers cs).map (fun hs => clickHandlerRun (totalHeight cs) hs raw)

/-!  ## Spec-side definitions

These definitions follow the wording of the specification (and of the claims
derived from it), to be compared with the source-derived definitions above.
-/

/-- Spec-side: `v` lies within the (closed) bounding segment spanned by `a`
and `b`. -/
def withinSegment (a b v : JSNum) : Bool := jle (jmin2 a b) v && jle v (jmax2 a b)

/-- Spec-side (claim C7, following the spec's §4.2 Polygon wording): an edge
crossing counts when the ray-line/edge-line intersection is finite and lies
within the ray's bounding segment, within *the edge's own bounding segment*,
and within the polygon's overall bounding box. -/
def Polygon.crossesClaimed (p : Props) (x y : JSNum)
    (e : (JSNum × JSNum) × (JSNum × JSNum)) : Bool :=
  let x0 := (lineIntersect (Polygon.rayM p x y) (Polygon.rayB p x y) (slopeOf e) (interceptOf e)).1
  let y0 := (lineIntersect (Polygon.rayM p x y) (Polygon.rayB p x y) (slopeOf e) (interceptOf e)).2
  x0.isFinite && y0.isFinite &&
  withinSegment (Polygon.refX p) x x0 && withinSegment (jq (-100)) y y0 &&
  withinSegment e.1.1 e.2.1 x0 && withinSegment e.1.2 e.2.2 y0 &&
  jge x0 (Polygon.minX p) && jle x0 (Polygon.maxX p) &&
  jge y0 (Polygon.minY p) && jle y0 (Polygon.maxY p)

/-- Spec-side (claim C7): the polygon hit test exactly as the claim states
it, edge-bounds restriction included: short-circuit to `false` outside the
bounding box, otherwise inside iff the number of `Polygon.crossesClaimed`
edges is odd. -/
def Polygon.containsClaimed (p : Props) (x y : JSNum) : Bool :=
  if jlt x (Polygon.minX p) || jgt x (Polygon.maxX p) ||
      jlt y (Polygon.minY p) || jgt y (Polygon.maxY p) then false
  else
    decide (((edgesOf (Polygon.shiftedPoints p)).countP (Polygon.crossesClaimed p x y)) % 2 = 1)

/-- Spec-side (amended C7): the same description *without* the edge-bounds
restriction — a crossing counts when the intersection is finite and lies
within the ray's bounding segment and the polygon's bounding box. -/
def Polygon.crossesDescribed (p : Props) (x y : JSNum)
    (e : (JSNum × JSNum) × (JSNum × JSNum)) : Bool :=
  let x0 := (lineIntersect (Polygon.rayM p x y) (Polygon.rayB p x y) (slopeOf e) (interceptOf e)).1
  let y0 := (lineIntersect (Polygon.rayM p x y) (Polygon.rayB p x y) (slopeOf e) (interceptOf e)).2
  x0.isFinite && y0.isFinite &&
  withinSegment (Polygon.refX p) x x0 && withinSegment (jq (-100)) y y0 &&
  jge x0 (Polygon.minX p) && jle x0 (Polygon.maxX p) &&
  jge y0 (Polygon.minY p) && jle y0 (Polygon.maxY p)

/-- Spec-side (amended C7): bounding-box short-circuit, then odd count of
`Polygon.crossesDescribed` edges. -/
def Polygon.containsDescribed (p : Props) (x y : JSNum) : Bool :=
  if jlt x (Polygon.minX p) || jgt x (Polygon.maxX p) ||
      jlt y (Polygon.minY p) || jgt y (Polygon.maxY p) then false
  else
    decide (((edgesOf (Polygon.shiftedPoints p)).countP (Polygon.crossesDescribed p x y)) % 2 = 1)

/-- Spec-side (claim C10, as stated): "declared" read as prop *presence*.
Declared width and height are used as-is; a missing height becomes
`1.1 * fontSize * (lines + 1)`, a missing width becomes
`longestLine * fontSize - fontSize`, with `fontSize` defaulting to 16. -/
def textDimsClaimed (p : Props) : Option ℚ × Option ℚ :=
  let fs : ℚ := p.fontSize.getD 16
  let lines := splitOn1 '\n' p.content
  let textHeight : ℚ := qmul (qmul (mkRat 11 10) fs) (mkRat (lines.length + 1 : ℤ) 1)
  let maxLen : ℕ := (lines.map List.length).foldr max 0
  let textWidth : ℚ := qsub (qmul (mkRat (maxLen : ℤ) 1) fs) fs
  match p.width, p.height with
  | some w, some h => (some w, some h)
  | some w, none => (some w, some textHeight)
  | none, some h => (some textWidth, some h)
  | none, none => (some textWidth, some textHeight)

/-- Spec-side (amended C10): the same replacement rule with "declared" read
as JS-*truthiness* — a dimension (or fontSize) equal to `0` counts as
missing, matching `if (width && height)` in the source. -/
def textDimsTruthy (p : Props) : Option ℚ × Option ℚ :=
  let fs : ℚ := if truthy p.fontSize then p.fontSize.getD 0 else 16
  let lines := splitOn1 '\n' p.content
  let textHeight : ℚ := qmul (qmul (mkRat 11 10) fs) (mkRat (lines.length + 1 : ℤ) 1)
  let maxLen : ℕ := (lines.map List.length).foldr max 0
  let textWidth : ℚ := qsub (qmul (mkRat (maxLen : ℤ) 1) fs) fs
  if truthy p.width then
    if truthy p.height then (p.width, p.height) else (p.width, some textHeight)
  else
    if truthy p.height then (some textWidth, p.height) else (some textWidth, some textHeight)

/-- Conversion of string literals used in concrete scenarios. -/
def chars (s : String) : List Char := s.toList

end CDetail

deriving instance DecidableEq for Except

namespace CDetail

open JSNum

/-!  ## Concrete scenarios used by the counterexamples and witnesses -/

/-- A clickable 100x100 box whose callback throws (id 1). -/
def c1NodeA : Node :=
  .mk .generic { x := some 0, y := some 0, width := some 100, height := some 100, onClick := some ⟨1, true⟩ } .nil

/-- A clickable 100x100 box with a normal callback (id 2), overlapping `c1NodeA`. -/
def c1NodeB : Node :=
  .mk .generic { x := some 0, y := some 0, width := some 100, height := some 100, onClick := some ⟨2, false⟩ } .nil

/-- One top-level child containing the two overlapping clickable boxes, A declared before B. -/
def c1Tree : List Node :=
  [.mk .generic { height := some 100 } (.cons c1NodeA (.cons c1NodeB .nil))]

/-- Two overlapping clickable 60x60 boxes; the first callback (id 7) throws,
the second (id 8) does not. -/
def c2Tree : List Node :=
  [.mk .generic { height := some 100 }
    (.cons (.mk .generic { x := some 0, y := some 0, width := some 60, height := some 60, onClick := some ⟨7, true⟩ } .nil)
      (.cons (.mk .generic { x := some 0, y := some 0, width := some 60, height := some 60, onClick := some ⟨8, false⟩ } .nil) .nil))]

/-- A single top-level child that itself carries a callback (id 1). -/
def c3Tree : List Node :=
  [.mk .generic { x := some 0, y := some 0, width := some 100, height := some 100, onClick := some ⟨1, false⟩ } .nil]

/-- The claim C4 scenario: two top-level siblings of heights 50 and 100; the
second sibling has an interactive descendant at local `y = 10` with height 20
(and `x = 0`, width 100, callback id 1). -/
def c4Tree : List Node :=
  [.mk .generic { height := some 50 } .nil,
   .mk .generic { x := some 0, y := some 0, width := some 100, height := some 100 }
     (.cons (.mk .generic { x := some 0, y := some 10, width := some 100, height := some 20, onClick := some ⟨1, false⟩ } .nil) .nil)]

/-- A single top-level child with explicit geometry `(0, 0, 100, 100)` and a
callback (id 1). -/
def c5Tree : List Node :=
  [.mk .generic { x := some 0, y := some 0, width := some 100, height := some 100, onClick := some ⟨1, false⟩ } .nil]

/-- A `Toggle` with a callback but no declared `x`/`y`. -/
def c6Toggle : Node := .mk .toggle { onClick := some ⟨1, false⟩ } .nil

/-- A top-level child whose only element child is `c6Toggle`. -/
def c6Parent : Node := .mk .generic { height := some 0 } (.cons c6Toggle .nil)

/-- A `Toggle` with a callback but no declared `x`/`y`, nested under a
top-level child. -/
def c6ToggleTree : List Node := [c6Parent]

/-- A generic element with a callback and explicit position but *no* declared
width or height, nested under a top-level child. -/
def c6NoDimsTree : List Node :=
  [.mk .generic {}
    (.cons (.mk .generic { x := some 1, y := some 2, onClick := some ⟨2, false⟩ } .nil) .nil)]

/-- The counterexample polygon for claim C7, already in raw (pre-shift)
coordinates: shifted vertices `(20,60) (90,60) (90,30) (100,20) (100,120)
(20,120)` — a rectangle with a small spike; the edge `(90,30)-(100,20)`
extends to a line that crosses the casting ray inside the ray's bounds and
the bounding box but far outside the edge's own segment. -/
def c7Poly : Props :=
  { pts := [(jq 5, jq 45), (jq 75, jq 45), (jq 75, jq 15), (jq 85, jq 5), (jq 85, jq 105), (jq 5, jq 105)] }

/-- A top-level child that both carries a callback (id 3) and has a (plain)
child element. -/
def c8Tree : List Node :=
  [.mk .generic { x := some 0, y := some 0, width := some 20, height := some 20, onClick := some ⟨3, false⟩ } (.cons (.mk .generic {} .nil) .nil)]

/-- A vertical segment: both endpoints have `x = 10` (slope is `30/0`). -/
def c9Line : Props := { x1 := some 10, y1 := some 0, x2 := some 10, y2 := some 50 }

/-- A degenerate polygon whose vertices are all on the vertical line `x = 5`:
every edge is vertical, so every ray/edge line intersection is non-finite. -/
def c9Poly : Props := { pts := [(jq 5, jq 5), (jq 5, jq 50)] }

/-- Sample `Text` props with a declared width `10`, a declared height `0`, and
content `"a"`. -/
def c10Props : Props := { width := some 10, height := some 0, content := ['a'] }

/-!  ## Claim C2 -/

/-- C2, counterexample.  Callback 7 throws when invoked; the dispatcher
catches and logs the exception but the handler returns `false`, so the event
is *not* treated as consumed: the later overlapping region is tried and its
callback 8 is also invoked for the same event (the claim requires the
invocation list to stop at 7). -/
theorem c2_counterexample :
    buildAndDispatch c2Tree (chars "30,30") = .ok ([7, 8], false) := by decide

/-- C2, amended: when a nested (descendant) handler's hit test passes and
its callback throws, the exception is caught (no uncaught exception escapes
the dispatch loop, whatever the rest of the registry does), the callback's
invocation is recorded, and the dispatcher *continues scanning*: the result
on `h :: hs` is the callback of `h` consed onto the result on `hs`. -/
theorem c2_throwing_handler_falls_through (T : ℚ) (k : Kind) (p : Props)
    (dims : Option ℚ × Option ℚ) (cb : Callback) (hs : List Handler) (x y : JSNum)
    (hthrow : cb.throws = true)
    (hhit : shapeHit T (.nested k p dims cb) x y = true) :
    dispatchList T (.nested k p dims cb :: hs) x y =
      (cb.id :: (dispatchList T hs x y).1, (dispatchList T hs x y).2) := by
  simp only [dispatchList, runHandler, hhit, if_true, hthrow]
  simp

/-- C2, witness for the amended theorem: a throwing clickable box over the
click point, followed by an empty registry tail. -/
theorem c2_throwing_handler_falls_through_witness :
    dispatchList 0
      [.nested .generic { x := some 0, y := some 0 } (some 100, some 100) ⟨9, true⟩]
      (jq 20) (jq 20) = ([9], false) :=
  (c2_throwing_handler_falls_through 0 .generic { x := some 0, y := some 0 }
    (some 100, some 100) ⟨9, true⟩ [] (jq 20) (jq 20) rfl (by decide)).trans (by decide)

/-!  ## Claim C4 -/

/-- C4, counterexample.  In `c4Tree` the second sibling sits below a sibling
of height 50, and its interactive descendant is declared at local `y = 10`
with height 20.  Under the claim the descendant's hit band (for the generic
box test) is `y ∈ (50+10+15, 50+10+20) = (75, 80)`; the code instead tests
the untranslated band `(25, 30)`.  A click at `y = 28` (outside the claimed
band) invokes the callback, and a click at `y = 77` (inside the claimed
band) invokes nothing. -/
theorem c4_counterexample :
    buildAndDispatch c4Tree (chars "50,28") = .ok ([1], false) ∧
    buildAndDispatch c4Tree (chars "50,77") = .ok ([], false) ∧
    ((75 : ℚ) < 77 ∧ (77 : ℚ) < 80) ∧ ¬ ((75 : ℚ) < 28) := by decide

/-- C4, amended: the registry builder hit-tests interactive descendants at
their *local* coordinates — the accumulated sibling-height offset does not
enter any nested handler's hit test (it is referenced only by the top-level
branch, and there as the final total of all siblings' heights). -/
theorem c4_nested_hit_ignores_offset (T T' : ℚ) (k : Kind) (p : Props)
    (dims : Option ℚ × Option ℚ) (cb : Callback) (x y : JSNum) :
    shapeHit T (.nested k p dims cb) x y = shapeHit T' (.nested k p dims cb) x y := rfl

/-!  ## Claim C10 -/

/-- C10, counterexample.  With width declared as `10`, height declared as
`0`, and content `"a"`, the claim (both dimensions declared, use as-is)
yields `(10, 0)`, but `Text.computeDimensions` treats the zero height as
missing (`if (width && height)` is JS truthiness) and computes
`1.1 * 16 * 2 = 176/5` instead. -/
theorem c10_counterexample :
    Text.computeDimensions c10Props = (some 10, some (mkRat 176 5)) ∧
    textDimsClaimed c10Props = (some 10, some 0) ∧
    (mkRat 176 5 : ℚ) ≠ (0 : ℚ) := by decide

/-- C10, amended: `Text.computeDimensions` implements exactly the claim's
replacement rule with "declared" read as JS-truthy — a dimension or fontSize
declared as `0` counts as missing. -/
theorem c10_dims_follow_truthiness (p : Props) :
    Text.computeDimensions p = textDimsTruthy p := by
  unfold Text.computeDimensions textDimsTruthy
  by_cases h1 : truthy p.width <;> by_cases h2 : truthy p.height <;> simp [h1, h2]

theorem onum_some (q : ℚ) : onum (some q) = JSNum.num q := rfl

theorem onum_none : onum none = JSNum.nan := rfl

theorem jq_def (q : ℚ) : jq q = JSNum.num q := rfl

/-!  ## Claim C5 -/

/-- C5, counterexample.  A top-level element at `(0, 0)` with width and
height 100: the claim's strict-interval test rejects the point
`(1000, 1000)` (the claimed intervals are `(15, 85)` for x and `(15, 100)`
for y), but the top-level branch uses a *disjunction* of comparisons, which
the point satisfies (`1000 > 0`), so its callback is invoked. -/
theorem c5_counterexample :
    buildAndDispatch c5Tree (chars "1000,1000") = .ok ([1], false) ∧
    ¬ ((15 : ℚ) < 1000 ∧ (1000 : ℚ) < 85 ∧ (15 : ℚ) < 1000 ∧ (1000 : ℚ) < 100) := by decide

/-- C5, amended: the strict-interval characterization holds for *nested*
elements (the generic box test): a finite query point is inside exactly when
`px ∈ (x+15, x+width-15)` and `py ∈ (y+15, y+height)`.  Elements that are
themselves top-level children instead use a disjunctive test that fires at
*every* finite query point whenever the declared width is positive. -/
theorem c5_box_hit_characterization :
    (∀ px py w h qx qy : ℚ,
      boxContains (some px) (some py) (some w, some h) (jq qx) (jq qy) = true ↔
        (px + 15 < qx ∧ qx < px + w - 15 ∧ py + 15 < qy ∧ qy < py + h)) ∧
    (∀ T px py w h qx qy : ℚ, 0 < w →
      topCond T (some px) (some py) (some w) (some h) (jq qx) (jq qy) = true) := by
  constructor
  · intro px py w h qx qy
    simp only [boxContains, jq_def, onum_some, jgt, jadd_num, jsub_num, jlt_num]
    simp only [Bool.and_eq_true, decide_eq_true_eq]
    constructor
    · rintro ⟨⟨⟨h1, h2⟩, h3⟩, h4⟩
      exact ⟨by linarith, by linarith, by linarith, by linarith⟩
    · rintro ⟨h1, h2, h3, h4⟩
      exact ⟨⟨⟨by linarith, by linarith⟩, by linarith⟩, by linarith⟩
  · intro T px py w h qx qy hw
    simp only [topCond, jq_def, onum_some, jgt, jadd_num, jlt_num]
    simp only [Bool.or_eq_true, decide_eq_true_eq]
    rcases le_or_lt qx px with hle | hlt
    · exact Or.inl (Or.inl (Or.inr (by linarith)))
    · exact Or.inl (Or.inl (Or.inl hlt))

/-- C5, witness: the nested strict-interval test accepts `(50, 50)` on a
`(0,0)`-`100x100` box, and the top-level disjunctive test fires at
`(1000, 1000)` on the same geometry. -/
theorem c5_box_hit_characterization_witness :
    boxContains (some 0) (some 0) (some 100, some 100) (jq 50) (jq 50) = true ∧
    topCond 0 (some 0) (some 0) (some 100) (some 100) (jq 1000) (jq 1000) = true :=
  ⟨(c5_box_hit_characterization.1 0 0 100 100 50 50).2 (by norm_num),
   c5_box_hit_characterization.2 0 0 0 100 100 1000 1000 (by norm_num)⟩

/-!  ## Claim C7 -/

/-- C7, counterexample.  For `c7Poly` and the query point `(40, 100)` — which
lies inside the bounding box, so no short circuit is involved — the
algorithm described by the claim (with the restriction to each edge's own
bounding segment) reports *inside*, while `Polygon.doesContainPoint`
reports *outside*: the source never checks the edge's own bounds, so the
stray line through `(105, 45)`-`(115, 35)` (shifted `(90,30)-(100,20)`)
contributes a second, spurious crossing. -/
theorem c7_counterexample :
    Polygon.doesContainPoint c7Poly (jq 40) (jq 100) = false ∧
    Polygon.containsClaimed c7Poly (jq 40) (jq 100) = true ∧
    (jlt (jq 40) (Polygon.minX c7Poly) || jgt (jq 40) (Polygon.maxX c7Poly) ||
      jlt (jq 100) (Polygon.minY c7Poly) || jgt (jq 100) (Polygon.maxY c7Poly)) = false := by
  decide

/-- C7, amended: `Polygon.doesContainPoint` implements the claim's described
algorithm with the edge's-own-bounding-segment restriction *removed*
(`Polygon.containsDescribed`): finite intersections are restricted only to
the ray's bounding segment and the polygon's bounding box; and a query point
outside the bounding box short-circuits to `false`. -/
theorem c7_polygon_algorithm (p : Props) (x y : JSNum) :
    Polygon.doesContainPoint p x y = Polygon.containsDescribed p x y ∧
    ((jlt x (Polygon.minX p) || jgt x (Polygon.maxX p) ||
      jlt y (Polygon.minY p) || jgt y (Polygon.maxY p)) = true →
      Polygon.doesContainPoint p x y = false) := by
  constructor
  · have hpred : ∀ e, Polygon.edgeCounted p x y e = Polygon.crossesDescribed p x y e := by
      intro e
      simp [Polygon.edgeCounted, Polygon.crossesDescribed, withinSegment, jge, Bool.and_assoc]
    have hcnt : (edgesOf (Polygon.shiftedPoints p)).countP (Polygon.edgeCounted p x y) =
        (edgesOf (Polygon.shiftedPoints p)).countP (Polygon.crossesDescribed p x y) :=
      List.countP_congr (fun e _ => by rw [hpred e])
    unfold Polygon.doesContainPoint Polygon.containsDescribed
    rw [hcnt]
    rcases Nat.mod_two_eq_zero_or_one
        ((edgesOf (Polygon.shiftedPoints p)).countP (Polygon.crossesDescribed p x y)) with hm | hm <;>
      simp [hm]
  · intro hcond
    simp [Polygon.doesContainPoint, hcond]

/-- C7, witness: the equivalence and the short circuit evaluated on `c7Poly`
(the short-circuit part at the far-outside point `(1000, 1000)`). -/
theorem c7_polygon_algorithm_witness :
    Polygon.containsDescribed c7Poly (jq 40) (jq 100) = false ∧
    Polygon.doesContainPoint c7Poly (jq 1000) (jq 1000) = false :=
  ⟨((c7_polygon_algorithm c7Poly (jq 40) (jq 100)).1.symm).trans (by decide),
   (c7_polygon_algorithm c7Poly (jq 1000) (jq 1000)).2 (by decide)⟩

/-!  ## Claim C1 -/

/-- C1, counterexample.  Two overlapping clickable boxes A (callback 1,
throwing) then B (callback 2); a click at `(50, 50)` inside both invokes
*both* callbacks — A's exception is caught, A's handler reports `false`,
and scanning continues into B — contradicting "invokes at most one
callback" and "a point inside both dispatches to A's callback only". -/
theorem c1_counterexample :
    buildAndDispatch c1Tree (chars "50,50") = .ok ([1, 2], false) := by decide

/-- C1, amended: *provided no callback in the registry throws*, the dispatch
loop invokes exactly the callback of the first handler (in registry order)
whose hit test succeeds, and nothing else — in particular at most one
callback, and for two overlapping regions A then B the click goes to A
alone. -/
theorem c1_first_match_wins (T : ℚ) (hs : List Handler) (x y : JSNum)
    (hnt : ∀ h ∈ hs, (Handler.cb h).throws = false) :
    dispatchList T hs x y =
      ((hs.find? (fun h => shapeHit T h x y)).elim [] (fun h => [(Handler.cb h).id]), false) := by
  have hrun : ∀ h', (Handler.cb h').throws = false →
      runHandler T h' x y =
        (shapeHit T h' x y, if shapeHit T h' x y then [(Handler.cb h').id] else [], false) := by
    intro h' hc
    cases h' with
    | top px py pw ph cb =>
      simp only [Handler.cb] at hc
      by_cases hc2 : topCond T px py pw ph x y <;>
        simp [runHandler, shapeHit, Handler.cb, hc2, hc]
    | nested k p dims cb =>
      simp only [Handler.cb] at hc
      by_cases hc2 : shapeHit T (.nested k p dims cb) x y <;>
        simp [runHandler, Handler.cb, hc2, hc]
  induction hs with
  | nil => rfl
  | cons h t ih =>
    have hcb : (Handler.cb h).throws = false := hnt h (List.mem_cons_self h t)
    have ht : ∀ h' ∈ t, (Handler.cb h').throws = false :=
      fun h' hm => hnt h' (List.mem_cons_of_mem h hm)
    by_cases hhit : shapeHit T h x y
    · simp [dispatchList, hrun h hcb, hhit, List.find?_cons]
    · simp [dispatchList, hrun h hcb, hhit, List.find?_cons, ih ht]

/-- C1, witness: a singleton registry with a non-throwing handler over the
click point dispatches exactly that callback. -/
theorem c1_first_match_wins_witness :
    dispatchList 0 [Handler.top (some 0) (some 0) (some 10) (some 10) ⟨1, false⟩]
      (jq 5) (jq 5) = ([1], false) :=
  (c1_first_match_wins 0 [Handler.top (some 0) (some 0) (some 10) (some 10) ⟨1, false⟩]
    (jq 5) (jq 5) (by decide)).trans (by decide)

/-!  ## Claim C3 -/

theorem jsqrtLt_nan_left (r : JSNum) : jsqrtLt JSNum.nan r = false := by cases r <;> rfl

/-- The generic box test rejects any query point with a `NaN` coordinate. -/
theorem boxContains_nan (px py : Option ℚ) (dims : Option ℚ × Option ℚ) (x y : JSNum)
    (hxy : x = JSNum.nan ∨ y = JSNum.nan) : boxContains px py dims x y = false := by
  rcases hxy with h | h <;> subst h <;>
    simp [boxContains, jgt, jlt_nan_right, jlt_nan_left]

/-- The circle test rejects any query point with a `NaN` coordinate. -/
theorem circle_nan (p : Props) (x y : JSNum) (hxy : x = JSNum.nan ∨ y = JSNum.nan) :
    Circle.doesContainPoint p x y = false := by
  rcases hxy with h | h <;> subst h <;>
    simp [Circle.doesContainPoint, jpow2, jsub_nan_left, jmul_nan_left, jadd_nan_left,
      jadd_nan_right, jsqrtLt_nan_left]

/-- The ellipse test rejects any query point with a `NaN` coordinate. -/
theorem ellipse_nan (p : Props) (x y : JSNum) (hxy : x = JSNum.nan ∨ y = JSNum.nan) :
    Ellipse.doesContainPoint p x y = false := by
  rcases hxy with h | h <;> subst h <;>
    simp [Ellipse.doesContainPoint, jpow2, jsub_nan_left, jdiv_nan_left, jmul_nan_left,
      jadd_nan_left, jadd_nan_right, jlt_nan_left]

/-- The toggle test rejects any query point with a `NaN` coordinate. -/
theorem toggle_nan (p : Props) (x y : JSNum) (hxy : x = JSNum.nan ∨ y = JSNum.nan) :
    Toggle.doesContainPoint p x y = false := by
  rcases hxy with h | h <;> subst h <;>
    simp [Toggle.doesContainPoint, jge, jle_nan_right, jle_nan_left]

/-- The line test rejects any query point with a `NaN` coordinate. -/
theorem line_nan (p : Props) (x y : JSNum) (hxy : x = JSNum.nan ∨ y = JSNum.nan) :
    Line.doesContainPoint p x y = false := by
  rcases hxy with h | h <;> subst h <;>
    simp [Line.doesContainPoint, jmul_nan_right, jadd_nan_left, jsub_nan_left,
      jsub_nan_right, jabs_nan, jlt_nan_left]

/-- The casting ray's slope is `NaN` whenever a query coordinate is `NaN`. -/
theorem rayM_nan (p : Props) (x y : JSNum) (hxy : x = JSNum.nan ∨ y = JSNum.nan) :
    Polygon.rayM p x y = JSNum.nan := by
  rcases hxy with h | h <;> subst h
  · simp [Polygon.rayM, jsub_nan_left, jdiv_nan_right]
  · simp [Polygon.rayM, jsub_nan_left, jdiv_nan_left]

/-- No edge is counted when the ray's slope is `NaN` (the computed
intersection abscissa is `NaN`, which fails the finiteness check). -/
theorem edgeCounted_of_rayM_nan (p : Props) (x y : JSNum)
    (e : (JSNum × JSNum) × (JSNum × JSNum)) (hm : Polygon.rayM p x y = JSNum.nan) :
    Polygon.edgeCounted p x y e = false := by
  simp [Polygon.edgeCounted, lineIntersect, hm, jsub_nan_left, jdiv_nan_right, isFinite]

/-- The polygon test rejects any query point with a `NaN` coordinate. -/
theorem polygon_nan (p : Props) (x y : JSNum) (hxy : x = JSNum.nan ∨ y = JSNum.nan) :
    Polygon.doesContainPoint p x y = false := by
  unfold Polygon.doesContainPoint
  split
  · rfl
  · have h0 : (edgesOf (Polygon.shiftedPoints p)).countP (Polygon.edgeCounted p x y) = 0 :=
      List.countP_eq_zero.2 fun e _ => by
        simp [edgeCounted_of_rayM_nan p x y e (rayM_nan p x y hxy)]
    simp [h0]

/-- Every nested (descendant) hit test rejects a query point with a `NaN`
coordinate. -/
theorem shapeHit_nested_nan (T : ℚ) (k : Kind) (p : Props) (dims : Option ℚ × Option ℚ)
    (cb : Callback) (x y : JSNum) (hxy : x = JSNum.nan ∨ y = JSNum.nan) :
    shapeHit T (.nested k p dims cb) x y = false := by
  cases k with
  | line => exact line_nan p x y hxy
  | circle => exact circle_nan p x y hxy
  | ellipse => exact ellipse_nan p x y hxy
  | polygon => exact polygon_nan p x y hxy
  | toggle => exact toggle_nan p x y hxy
  | text => exact boxContains_nan p.x p.y dims x y hxy
  | link => exact boxContains_nan p.x p.y dims x y hxy
  | h1 => exact boxContains_nan p.x p.y dims x y hxy
  | generic => exact boxContains_nan p.x p.y dims x y hxy

/-- Every handler produced by `buildNested` is a nested handler. -/
theorem buildNested_isNested (d : Node) (hs : List Handler) (h : buildNested d = .ok hs) :
    ∀ hh ∈ hs, hh.isNested = true := by
  unfold buildNested at h
  cases hod : d.props.onClick with
  | none =>
    simp only [hod] at h
    injection h with h2
    subst h2
    intro hh hm
    cases hm
  | some cb =>
    simp only [hod] at h
    split at h
    · split at h <;> cases h
    · injection h with h2
      subst h2
      intro hh hm
      rcases List.mem_singleton.1 hm with rfl
      rfl

/-- Every handler produced by a descendant scan is a nested handler. -/
theorem buildList_isNested (ds : List Node) (hs : List Handler) (h : buildList ds = .ok hs) :
    ∀ hh ∈ hs, hh.isNested = true := by
  induction ds generalizing hs with
  | nil =>
    injection h with h2
    subst h2
    intro hh hm
    cases hm
  | cons d ds ih =>
    unfold buildList at h
    cases hbd : buildNested d with
    | error e =>
      simp only [hbd] at h
      exact Except.noConfusion h
    | ok h1 =>
      simp only [hbd] at h
      cases hbl : buildList ds with
      | error e =>
        simp only [hbl] at h
        exact Except.noConfusion h
      | ok t =>
        simp only [hbl] at h
        injection h with h2
        subst h2
        intro hh hm
        rcases List.mem_append.1 hm with hm2 | hm2
        · exact buildNested_isNested d h1 hbd hh hm2
        · exact ih t hbl hh hm2

/-- If a top-level child carries no callback, all its handlers are nested. -/
theorem buildForChild_isNested (c : Node) (hc : List Handler) (h : buildForChild c = .ok hc)
    (hno : c.props.onClick = none) : ∀ hh ∈ hc, hh.isNested = true := by
  unfold buildForChild at h
  simp only [hno] at h
  by_cases hch : hasChildrenProp c = true
  · simp only [hch, if_true] at h
    cases hbl : buildList (getChildrenRecursive c) with
    | error e =>
      simp only [hbl] at h
      exact Except.noConfusion h
    | ok t =>
      simp only [hbl, List.nil_append] at h
      injection h with h2
      subst h2
      exact buildList_isNested _ _ hbl
  · simp only [Bool.not_eq_true] at hch
    simp only [hch, Bool.false_eq_true, if_false, List.nil_append] at h
    injection h with h2
    subst h2
    intro hh hm
    cases hm

/-- If no top-level child carries a callback, every registered handler is a
nested handler. -/
theorem buildHandlers_isNested (cs : List Node) (hs : List Handler)
    (hok : buildHandlers cs = .ok hs) (htop : ∀ c ∈ cs, c.props.onClick = none) :
    ∀ hh ∈ hs, hh.isNested = true := by
  induction cs generalizing hs with
  | nil =>
    injection hok with h2
    subst h2
    intro hh hm
    cases hm
  | cons c cs ih =>
    unfold buildHandlers at hok
    cases hbc : buildForChild c with
    | error e =>
      simp only [hbc] at hok
      exact Except.noConfusion hok
    | ok hc =>
      simp only [hbc] at hok
      cases hbr : buildHandlers cs with
      | error e =>
        simp only [hbr] at hok
        exact Except.noConfusion hok
      | ok rest =>
        simp only [hbr] at hok
        injection hok with h2
        subst h2
        intro hh hm
        rcases List.mem_append.1 hm with hm2 | hm2
        · exact buildForChild_isNested c hc hbc (htop c (List.mem_cons_self c cs)) hh hm2
        · exact ih rest hbr (fun c' hc' => htop c' (List.mem_cons_of_mem c hc')) hh hm2

/-- A nested handler whose hit test fails contributes nothing. -/
theorem runHandler_nested_miss (T : ℚ) (k : Kind) (p : Props) (dims : Option ℚ × Option ℚ)
    (cb : Callback) (x y : JSNum) (h : shapeHit T (.nested k p dims cb) x y = false) :
    runHandler T (.nested k p dims cb) x y = (false, [], false) := by
  simp [runHandler, h]

/-- A registry of handlers that all miss dispatches nothing. -/
theorem dispatchList_all_miss (T : ℚ) (hs : List Handler) (x y : JSNum)
    (hm : ∀ h ∈ hs, runHandler T h x y = (false, [], false)) :
    dispatchList T hs x y = ([], false) := by
  induction hs with
  | nil => rfl
  | cons h t ih =>
    simp [dispatchList, hm h (List.mem_cons_self h t),
      ih (fun h' hm' => hm h' (List.mem_cons_of_mem h hm'))]

/-- C3, counterexample.  `"abc,5"` splits into exactly two components and
`parseInt("abc")` is `NaN`, so the claim requires zero callback invocations;
but `c3Tree`'s single interactive element is a *top-level* child, whose
disjunctive hit test fires on the `NaN` x-coordinate (`5 < T + 0 + 100`),
and its callback is invoked. -/
theorem c3_counterexample :
    buildAndDispatch c3Tree (chars "abc,5") = .ok ([1], false) ∧
    splitOn1 ',' (chars "abc,5") = [chars "abc", chars "5"] ∧
    parseIntJS (chars "abc") = JSNum.nan := by decide

/-- A top-level child with no callback whose only element child is a
clickable 100x100 box (callback id 2); its registry is `c3NestedHandlers`. -/
def c3NestedTree : List Node :=
  [.mk .generic {} (.cons (.mk .generic { x := some 0, y := some 0, width := some 100, height := some 100, onClick := some ⟨2, false⟩ } .nil) .nil)]

/-- The registry that `buildHandlers` produces for `c3NestedTree`: one
nested handler. -/
def c3NestedHandlers : List Handler :=
  [Handler.nested .generic { x := some 0, y := some 0, width := some 100, height := some 100, onClick := some ⟨2, false⟩ } (some 100, some 100) ⟨2, false⟩]

/-- C3, amended: a payload that does not split into exactly two components
is discarded silently (no callback, no error) for *every* registry and
every stacking total — the length check precedes any handler.  A
two-component payload with a non-integer component is instead dispatched
with `NaN` coordinates; every *descendant* hit test rejects such a point,
so for registries built from trees whose top-level children carry no
callbacks the dispatch invokes nothing and raises nothing — but top-level
handlers are not covered (see the counterexample). -/
theorem c3_malformed_payload (T : ℚ) (hs : List Handler) (raw : List Char) :
    ((splitOn1 ',' raw).length ≠ 2 → clickHandlerRun T hs raw = ([], false)) ∧
    (∀ cs : List Node, buildHandlers cs = .ok hs →
      (∀ c ∈ cs, c.props.onClick = none) →
      ∀ c0 c1, splitOn1 ',' raw = [c0, c1] →
      (parseIntJS c0 = JSNum.nan ∨ parseIntJS c1 = JSNum.nan) →
      clickHandlerRun T hs raw = ([], false)) := by
  constructor
  · intro hlen
    unfold clickHandlerRun
    split
    · next c0 c1 heq => exact absurd (by rw [heq]; rfl) hlen
    · rfl
  · intro cs hok htop c0 c1 hsp hnan
    unfold clickHandlerRun
    rw [hsp]
    apply dispatchList_all_miss
    intro h hm
    have hn := buildHandlers_isNested cs hs hok htop h hm
    cases h with
    | top px py pw ph cb => simp [Handler.isNested] at hn
    | nested k p dims cb =>
      exact runHandler_nested_miss _ _ _ _ _ _ _ (shapeHit_nested_nan _ _ _ _ _ _ _ hnan)

/-- C3, witness: the wrong-arity discard exercised on a registry that *does*
contain a top-level callback-carrying handler (payload `"1,2,3"`), and the
`NaN`-coordinate discard exercised on the nested-only registry of
`c3NestedTree` (payload `"abc,5"`). -/
theorem c3_malformed_payload_witness :
    clickHandlerRun 0 [Handler.top (some 0) (some 0) (some 10) (some 10) ⟨1, false⟩]
      (chars "1,2,3") = ([], false) ∧
    clickHandlerRun 0 c3NestedHandlers (chars "abc,5") = ([], false) :=
  ⟨(c3_malformed_payload 0 [Handler.top (some 0) (some 0) (some 10) (some 10) ⟨1, false⟩]
      (chars "1,2,3")).1 (by decide),
   (c3_malformed_payload 0 c3NestedHandlers (chars "abc,5")).2 c3NestedTree (by decide)
      (by decide) (chars "abc") (chars "5") (by decide) (Or.inl (by decide))⟩

/-!  ## Claim C6 -/

/-- The condition under which the descendant scan throws for a node: it
carries a callback, is not one of the four exempted shape kinds (Circle,
Ellipse, Polygon, Line — note: *not* Toggle), and lacks a declared `x` or
`y`.  Declared width/height are not consulted (except to pick between the
two `H1` error messages). -/
def geometryBad (d : Node) : Bool :=
  d.props.onClick.isSome && (d.props.x.isNone || d.props.y.isNone) && !exemptShape d.kind

theorem buildNested_isOk_false_iff (d : Node) :
    (buildNested d).isOk = false ↔ geometryBad d = true := by
  unfold buildNested geometryBad
  cases hod : d.props.onClick with
  | none => simp [hod, Except.isOk, Except.toBool]
  | some cb =>
    simp only [hod, Option.isSome_some, Bool.true_and]
    by_cases hcond : ((d.props.x.isNone || d.props.y.isNone) && !exemptShape d.kind) = true
    · rw [if_pos hcond]
      constructor
      · intro _
        exact hcond
      · intro _
        split <;> rfl
    · rw [if_neg hcond]
      simp only [Except.isOk, Except.toBool]
      constructor
      · intro hf
        cases hf
      · intro ht
        exact absurd ht hcond

theorem buildList_isOk_false_iff (ds : List Node) :
    (buildList ds).isOk = false ↔ ∃ d ∈ ds, geometryBad d = true := by
  induction ds with
  | nil => simp [buildList, Except.isOk, Except.toBool]
  | cons d ds ih =>
    unfold buildList
    cases hbd : buildNested d with
    | error e =>
      have hg : geometryBad d = true := (buildNested_isOk_false_iff d).1 (by simp [hbd, Except.isOk, Except.toBool])
      simp only [Except.isOk, Except.toBool]
      constructor
      · intro _
        exact ⟨d, List.mem_cons_self d ds, hg⟩
      · intro _
        trivial
    | ok h1 =>
      cases hbl : buildList ds with
      | error e =>
        have hg : ∃ d' ∈ ds, geometryBad d' = true := ih.1 (by simp [hbl, Except.isOk, Except.toBool])
        simp only [Except.isOk, Except.toBool]
        constructor
        · intro _
          rcases hg with ⟨d', hm, hgd⟩
          exact ⟨d', List.mem_cons_of_mem d hm, hgd⟩
        · intro _
          trivial
      | ok t =>
        simp only [Except.isOk, Except.toBool]
        constructor
        · intro hfalse
          cases hfalse
        · rintro ⟨d', hm, hgd⟩
          rcases List.mem_cons.1 hm with rfl | hm2
          · have := (buildNested_isOk_false_iff d').2 hgd
            rw [hbd] at this
            cases this
          · have := ih.2 ⟨d', hm2, hgd⟩
            rw [hbl] at this
            cases this

theorem buildForChild_isOk_false_iff (c : Node) :
    (buildForChild c).isOk = false ↔
      (hasChildrenProp c = true ∧ ∃ d ∈ getChildrenRecursive c, geometryBad d = true) := by
  unfold buildForChild
  by_cases hch : hasChildrenProp c = true
  · simp only [hch, if_true, true_and]
    cases hbl : buildList (getChildrenRecursive c) with
    | error e =>
      have hg := (buildList_isOk_false_iff (getChildrenRecursive c)).1 (by simp [hbl, Except.isOk, Except.toBool])
      simp only [Except.isOk, Except.toBool]
      constructor
      · intro _
        exact hg
      · intro _
        trivial
    | ok t =>
      simp only [Except.isOk, Except.toBool]
      constructor
      · intro hfalse
        cases hfalse
      · intro hex
        have := (buildList_isOk_false_iff (getChildrenRecursive c)).2 hex
        rw [hbl] at this
        cases this
  · simp only [Bool.not_eq_true] at hch
    simp [hch, Except.isOk, Except.toBool]

/-- C6, counterexample.  A `Toggle` (a self-describing shape kind per the
claim) carrying a callback but no `x`/`y` makes the build *fail* with the
geometry error — `Toggle` is not in the code's exemption list; while a
generic element with a callback, declared `x`/`y`, and *no* declared
width/height builds *without* error — only position is checked. -/
theorem c6_counterexample :
    buildHandlers c6ToggleTree = .error .missingGeometry ∧
    (buildHandlers c6NoDimsTree).isOk = true := by decide

/-- C6, amended: registry construction fails (eagerly, during the build)
exactly when some top-level child with a truthy `children` prop has a
scanned descendant that carries a callback, is not of kind Circle, Ellipse,
Polygon, or Line (Toggle is *not* exempt), and lacks a declared `x` or `y`
(`geometryBad`).  Missing width/height alone never raise; interactive
top-level children without JSX children are never checked. -/
theorem c6_geometry_error_characterization (cs : List Node) :
    (buildHandlers cs).isOk = false ↔
      ∃ c ∈ cs, hasChildrenProp c = true ∧
        ∃ d ∈ getChildrenRecursive c, geometryBad d = true := by
  induction cs with
  | nil => simp [buildHandlers, Except.isOk, Except.toBool]
  | cons c cs ih =>
    unfold buildHandlers
    cases hbc : buildForChild c with
    | error e =>
      have hg := (buildForChild_isOk_false_iff c).1 (by simp [hbc, Except.isOk, Except.toBool])
      simp only [Except.isOk, Except.toBool]
      constructor
      · intro _
        exact ⟨c, List.mem_cons_self c cs, hg⟩
      · intro _
        trivial
    | ok hc =>
      cases hbr : buildHandlers cs with
      | error e =>
        have hg := ih.1 (by simp [hbr, Except.isOk, Except.toBool])
        simp only [Except.isOk, Except.toBool]
        constructor
        · intro _
          rcases hg with ⟨c', hm, hgc⟩
          exact ⟨c', List.mem_cons_of_mem c hm, hgc⟩
        · intro _
          trivial
      | ok rest =>
        simp only [Except.isOk, Except.toBool]
        constructor
        · intro hfalse
          cases hfalse
        · rintro ⟨c', hm, hgc⟩
          rcases List.mem_cons.1 hm with rfl | hm2
          · have := (buildForChild_isOk_false_iff c').2 hgc
            rw [hbc] at this
            cases this
          · have := ih.2 ⟨c', hm2, hgc⟩
            rw [hbr] at this
            cases this

/-- C6, witness: the characterization instantiated on the `Toggle` tree —
the toggle node is a scanned descendant with a callback and no position, so
the build errors. -/
theorem c6_geometry_error_characterization_witness :
    (buildHandlers c6ToggleTree).isOk = false :=
  (c6_geometry_error_characterization c6ToggleTree).2
    ⟨c6Parent, List.mem_cons_self c6Parent [], by decide,
      c6Toggle, by exact List.Mem.tail _ (List.Mem.head _), by decide⟩

/-!  ## Claim C8 -/

/-- A node with a falsy `children` prop has no element children. -/
theorem hasChildrenProp_false_children (c : Node) (h : hasChildrenProp c = false) :
    c.children = NodeList.nil := by
  cases c with
  | mk k p cc =>
    cases cc with
    | nil => rfl
    | cons a b => simp [hasChildrenProp, NodeList.isNil, Node.children] at h

/-- The callbacks captured by one scanned descendant's handlers. -/
theorem buildNested_ok_map (d : Node) (h1 : List Handler) (h : buildNested d = .ok h1) :
    h1.map Handler.cb = (d.props.onClick).toList := by
  unfold buildNested at h
  cases hod : d.props.onClick with
  | none =>
    simp only [hod] at h
    injection h with h2
    subst h2
    simp
  | some cb =>
    simp only [hod] at h
    split at h
    · split at h <;> exact Except.noConfusion h
    · injection h with h2
      subst h2
      simp [Handler.cb]

/-- The callbacks captured by a descendant scan, in scan order. -/
theorem buildList_map_cb (ds : List Node) (hs : List Handler) (h : buildList ds = .ok hs) :
    hs.map Handler.cb = ds.filterMap (fun n => n.props.onClick) := by
  induction ds generalizing hs with
  | nil =>
    injection h with h2
    subst h2
    rfl
  | cons d ds ih =>
    unfold buildList at h
    cases hbd : buildNested d with
    | error e =>
      simp only [hbd] at h
      exact Except.noConfusion h
    | ok h1 =>
      simp only [hbd] at h
      cases hbl : buildList ds with
      | error e =>
        simp only [hbl] at h
        exact Except.noConfusion h
      | ok t =>
        simp only [hbl] at h
        injection h with h2
        subst h2
        have hh1 := buildNested_ok_map d h1 hbd
        cases hod : d.props.onClick with
        | none =>
          rw [hod] at hh1
          simp only [Option.toList] at hh1
          simp [List.filterMap_cons, hod, hh1, ih t hbl]
        | some cb =>
          rw [hod] at hh1
          simp only [Option.toList] at hh1
          simp [List.filterMap_cons, hod, hh1, ih t hbl]

/-- The callbacks contributed by one top-level child, when an interactive
top-level child has no JSX children. -/
theorem buildForChild_map (c : Node) (hc : List Handler) (h : buildForChild c = .ok hc)
    (hsep : c.props.onClick.isSome = true → hasChildrenProp c = false) :
    hc.map Handler.cb = (getChildrenRecursive c).filterMap (fun n => n.props.onClick) := by
  unfold buildForChild at h
  cases hod : c.props.onClick with
  | some cb =>
    have hch : hasChildrenProp c = false := hsep (by simp [hod])
    simp only [hod, hch, Bool.false_eq_true, if_false, List.append_nil] at h
    injection h with h2
    subst h2
    have hcc := hasChildrenProp_false_children c hch
    cases c with
    | mk k p cc =>
      simp only [Node.children] at hcc
      subst hcc
      simp only [Node.props] at hod
      simp [getChildrenRecursive, childrenRecursiveAll, Node.props, hod, Handler.cb]
  | none =>
    simp only [hod] at h
    by_cases hch : hasChildrenProp c = true
    · simp only [hch, if_true] at h
      cases hbl : buildList (getChildrenRecursive c) with
      | error e =>
        simp only [hbl] at h
        exact Except.noConfusion h
      | ok t =>
        simp only [hbl, List.nil_append] at h
        injection h with h2
        subst h2
        exact buildList_map_cb _ _ hbl
    · simp only [Bool.not_eq_true] at hch
      simp only [hch, Bool.false_eq_true, if_false, List.nil_append] at h
      injection h with h2
      subst h2
      have hcc := hasChildrenProp_false_children c hch
      cases c with
      | mk k p cc =>
        simp only [Node.children] at hcc
        subst hcc
        simp only [Node.props] at hod
        simp [getChildrenRecursive, childrenRecursiveAll, Node.props, hod]

/-- C8, counterexample.  A tree with exactly one interactive node — a
top-level child that also has a (plain) element child — produces a registry
of *two* handlers: the top-level branch registers it, and the descendant
scan (whose scan list starts with the child itself) registers it again. -/
theorem c8_counterexample :
    (buildHandlers c8Tree).map List.length = .ok 2 ∧
    (c8Tree.flatMap getChildrenRecursive).countP (fun n => n.props.onClick.isSome) = 1 := by
  decide

/-- C8, amended: *provided no top-level child both carries a callback and
has a truthy `children` prop*, the registry contains exactly one handler per
interactive node, in depth-first, sibling-ordered traversal order: the
registered callbacks are exactly `filterMap onClick` of the preorder
traversal.  (A top-level child that both carries a callback and has
children is registered twice — see the counterexample.) -/
theorem c8_registry_dfs_order (cs : List Node) (hs : List Handler)
    (hok : buildHandlers cs = .ok hs)
    (hsep : ∀ c ∈ cs, c.props.onClick.isSome = true → hasChildrenProp c = false) :
    hs.map Handler.cb = (cs.flatMap getChildrenRecursive).filterMap (fun n => n.props.onClick) := by
  induction cs generalizing hs with
  | nil =>
    injection hok with h2
    subst h2
    rfl
  | cons c cs ih =>
    unfold buildHandlers at hok
    cases hbc : buildForChild c with
    | error e =>
      simp only [hbc] at hok
      exact Except.noConfusion hok
    | ok hc =>
      simp only [hbc] at hok
      cases hbr : buildHandlers cs with
      | error e =>
        simp only [hbr] at hok
        exact Except.noConfusion hok
      | ok rest =>
        simp only [hbr] at hok
        injection hok with h2
        subst h2
        rw [List.map_append, List.flatMap_cons, List.filterMap_append]
        rw [buildForChild_map c hc hbc (hsep c (List.mem_cons_self c cs)),
          ih rest hbr (fun c' hm hi => hsep c' (List.mem_cons_of_mem c hm) hi)]

/-- C8, witness: one childless interactive top-level node yields exactly its
own callback, in place. -/
theorem c8_registry_dfs_order_witness :
    ([Handler.top (some 1) (some 2) (some 3) (some 4) ⟨5, false⟩]).map Handler.cb =
      (([Node.mk .generic { x := some 1, y := some 2, width := some 3, height := some 4, onClick := some ⟨5, false⟩ } .nil] : List Node).flatMap
        getChildrenRecursive).filterMap (fun n => n.props.onClick) :=
  c8_registry_dfs_order
    [Node.mk .generic { x := some 1, y := some 2, width := some 3, height := some 4, onClick := some ⟨5, false⟩ } .nil]
    [Handler.top (some 1) (some 2) (some 3) (some 4) ⟨5, false⟩] (by decide) (by decide)

/-!  ## Claim C9 -/

/-- C9: degenerate geometry is normalized to "no hit", never an error.  A
vertical segment (equal endpoint x-coordinates, hence a division by zero in
the slope) contains no point at all; and a polygon all of whose edges yield
a non-finite ray/edge intersection (e.g. all-vertical degenerate edges)
contains no point: the non-finite intersections are discarded by the
finiteness check, so the crossing count is zero. -/
theorem c9_degenerate_geometry :
    (∀ (p : Props) (a : ℚ), p.x1 = some a → p.x2 = some a →
      ∀ x y : JSNum, Line.doesContainPoint p x y = false) ∧
    (∀ (p : Props) (x y : JSNum),
      (∀ e ∈ edgesOf (Polygon.shiftedPoints p),
        (lineIntersect (Polygon.rayM p x y) (Polygon.rayB p x y)
          (slopeOf e) (interceptOf e)).1.isFinite = false ∨
        (lineIntersect (Polygon.rayM p x y) (Polygon.rayB p x y)
          (slopeOf e) (interceptOf e)).2.isFinite = false) →
      Polygon.doesContainPoint p x y = false) := by
  constructor
  · intro p a hx1 hx2 x y
    simp only [Line.doesContainPoint, hx1, hx2, onum_some]
    have hden : jsub (jadd (JSNum.num a) (jq 15)) (jadd (JSNum.num a) (jq 15)) = JSNum.num 0 := by
      simp [jq_def, jadd_num, jsub_num]
    rw [hden]
    apply jlt_jabs_false
    apply jsub_isFinite_false
    apply jadd_isFinite_false
    apply jsub_isFinite_false
    apply jmul_isFinite_false
    exact jdiv_zero_isFinite_false _
  · intro p x y hdeg
    unfold Polygon.doesContainPoint
    split
    · rfl
    · have h0 : (edgesOf (Polygon.shiftedPoints p)).countP (Polygon.edgeCounted p x y) = 0 :=
        List.countP_eq_zero.2 fun e he => by
          rcases hdeg e he with hfin | hfin <;> simp [Polygon.edgeCounted, hfin]
      simp [h0]

/-- C9, witness: the vertical segment `c9Line` does not contain `(12, 20)`,
and the all-degenerate polygon `c9Poly` (whose every ray/edge intersection
is non-finite for the in-bounding-box query `(20, 30)`) does not contain
that point. -/
theorem c9_degenerate_geometry_witness :
    Line.doesContainPoint c9Line (jq 12) (jq 20) = false ∧
    Polygon.doesContainPoint c9Poly (jq 20) (jq 30) = false :=
  ⟨c9_degenerate_geometry.1 c9Line 10 rfl rfl (jq 12) (jq 20),
   c9_degenerate_geometry.2 c9Poly (jq 20) (jq 30) (by decide)⟩

end CDetail
